import Mathlib

/-!
Verification of the real-time audio-to-subtitle pipeline of
`mac-live-subtitle` (`src/src/deepgram_transcriber.py`, `src/src/audio_capture.py`,
`src/main.py`) against its natural-language specification.

The Python code is shallowly embedded: each event handler becomes a pure
state-transition function returning the new state together with the list of
observable effects (display emissions, polish-queue submissions, error-callback
invocations).  External services (the Deepgram socket, the OpenAI chat call,
scipy's resampler) are abstracted by explicit outcome parameters at the call
boundary; everything the repository's own code computes is translated directly.
-/

namespace MacLiveSubtitle

/-- `TranscriptionResult` dataclass from `deepgram_transcriber.py`. -/
structure TranscriptionResult where
  detected_language : String
  original_text : String
  chinese_translation : String
  timestamp : String
  is_final : Bool := true
deriving DecidableEq

/-- A transcript event from the recognizer: `result.channel.alternatives[0].transcript`,
`result.is_final`, and the optional `languages` attribute on the first alternative. -/
structure TranscriptFragment where
  transcript : String
  is_final : Bool
  languages : Option (List String)
deriving DecidableEq

/-- An item placed on `polish_queue` by `_queue_for_polish`:
`{'text': ..., 'language': ..., 'timestamp': ...}`. -/
structure PolishRequest where
  text : String
  language : String
  timestamp : String
deriving DecidableEq

/-- `langs[0] if langs else (self.language or "unknown")`: Python truthiness makes
both `None` and an empty list fall through to the default, and an empty
configured language string falls through to `"unknown"`. -/
def detectedLanguage (languages : Option (List String)) (language : String) : String :=
  match languages with
  | some (l :: _) => l
  | _ => if language = "" then "unknown" else language

/-- The aggregation-relevant mutable attributes of `DeepgramTranscriber`, plus the
configuration read by `_on_transcript`.  `mainLoopSet` models `self.main_loop`
being non-`None` (set by `start`), `callbackSet` models `self._transcription_callback`
being non-`None`. -/
structure AggState where
  interim_results : Bool
  language : String
  pending_text : String
  last_translation_time : ℚ
  translation_threshold : ℚ
  mainLoopSet : Bool
  callbackSet : Bool
deriving DecidableEq

/-- The `DeepgramTranscriber.__init__` values of the aggregation state:
`pending_text = ""`, `last_translation_time = 0`, `translation_threshold = 1.0`,
no main loop saved yet, no callback registered yet. -/
def initAggState (interim : Bool) (language : String) : AggState :=
  { interim_results := interim
    language := language
    pending_text := ""
    last_translation_time := 0
    translation_threshold := 1
    mainLoopSet := false
    callbackSet := false }

/-- `_on_transcript`, as a pure transition.  `now` is `datetime.now().timestamp()`
and `ts` the formatted clock string.  Returns the new state, the interim results
delivered to the transcription callback, and the submissions placed on the
polish queue.  Mirrors the source: empty transcripts return early; the interim
branch (interim mode on, fragment not final) records pending text, emits an
interim result with an empty translation, and submits only past the time
threshold; the final branch clears pending text, stamps the time, and submits;
a non-final fragment with interim mode disabled falls through all branches. -/
def onTranscript (st : AggState) (frag : TranscriptFragment) (now : ℚ) (ts : String) :
    AggState × List TranscriptionResult × List PolishRequest :=
  if frag.transcript = "" then (st, [], [])
  else if st.interim_results = true ∧ frag.is_final = false then
    let lang := detectedLanguage frag.languages st.language
    let interimResult : TranscriptionResult :=
      { detected_language := lang
        original_text := frag.transcript
        chinese_translation := ""
        timestamp := ts
        is_final := false }
    let emitted := if st.callbackSet then [interimResult] else []
    let st1 := { st with pending_text := frag.transcript }
    if st.translation_threshold ≤ now - st.last_translation_time then
      let st2 := { st1 with last_translation_time := now }
      let subs := if st.mainLoopSet then [PolishRequest.mk frag.transcript lang ts] else []
      (st2, emitted, subs)
    else
      (st1, emitted, [])
  else if frag.is_final = true then
    let lang := detectedLanguage frag.languages st.language
    let st1 := { st with pending_text := "", last_translation_time := now }
    let subs := if st.mainLoopSet then [PolishRequest.mk frag.transcript lang ts] else []
    (st1, [], subs)
  else (st, [], [])

/-! ## Polish pipeline (`_polish_transcription`, `_polish_processor`) -/

/-- Outcome of parsing `completion.choices[0].message.content` in
`_polish_transcription`: either `json.loads` succeeded (with the optional
`chinese_translation` field), or it raised `JSONDecodeError` and the regex
fallback either matched a translation or did not. -/
inductive ParseOutcome where
  | jsonOk (translation : Option String)
  | jsonMalformed (extracted : Option String)
deriving DecidableEq

/-- Outcome of one call to the external polishing service: either the
`chat.completions.create` call (or anything else in the `try` block) raised, or
a response body was obtained and parsed as described by `ParseOutcome`. -/
inductive PolishOutcome where
  | callError
  | response (p : ParseOutcome)
deriving DecidableEq

/-- The translation string extracted from a response:
`result_data.get('chinese_translation', '')` after `json.loads`, or the regex
group after a parse failure, or `""` when neither yields a value. -/
def extractTranslation : ParseOutcome → String
  | .jsonOk (some t) => t
  | .jsonOk none => ""
  | .jsonMalformed (some t) => t
  | .jsonMalformed none => ""

/-- `self.context_window = 40` in `DeepgramTranscriber.__init__`. -/
def context_window : Nat := 40

/-- `_polish_transcription`, as a pure function of the call outcome.  On any
error in the `try` block it returns an untranslated result and leaves
`recent_transcriptions` untouched; on a response it builds the result, appends
it to `recent_transcriptions` and truncates the list to its last
`context_window` entries when it exceeds the cap. -/
def polishTranscription (ctx : List TranscriptionResult) (text language timestamp : String)
    (outcome : PolishOutcome) : TranscriptionResult × List TranscriptionResult :=
  match outcome with
  | .callError =>
    ({ detected_language := language
       original_text := text
       chinese_translation := ""
       timestamp := timestamp
       is_final := true }, ctx)
  | .response p =>
    let result : TranscriptionResult :=
      { detected_language := language
        original_text := text
        chinese_translation := extractTranslation p
        timestamp := timestamp
        is_final := true }
    let ctx1 := ctx ++ [result]
    let ctx2 := if context_window < ctx1.length then ctx1.drop (ctx1.length - context_window)
                else ctx1
    (result, ctx2)

/-- The body of one `_polish_processor` iteration for a dequeued (non-sentinel)
item: run `_polish_transcription` and, when the transcription callback is set,
deliver the result.  Returns the delivered results and the new context list. -/
def processQueueItem (ctx : List TranscriptionResult) (cbSet : Bool)
    (item : PolishRequest × PolishOutcome) : List TranscriptionResult × List TranscriptionResult :=
  let (r, ctx') := polishTranscription ctx item.1.text item.1.language item.1.timestamp item.2
  ((if cbSet then [r] else []), ctx')

/-- The `_polish_processor` loop over the remaining queue contents.  The loop
condition `while self.is_running` is re-checked before every dequeue; `running`
is the value of `is_running` during the drain (`stop()` clears it before
enqueueing the `None` sentinel, and nothing in the loop sets it).  A `none`
entry is the sentinel and breaks the loop; an empty remaining queue models the
consumer blocking in `polish_queue.get()`. -/
def polishProcessorRun (running cbSet : Bool) (ctx : List TranscriptionResult) :
    List (Option (PolishRequest × PolishOutcome)) → List TranscriptionResult × List TranscriptionResult
  | [] => ([], ctx)
  | q :: rest =>
    if running then
      match q with
      | none => ([], ctx)
      | some item =>
        let (es, ctx') := processQueueItem ctx cbSet item
        let (es', ctxf) := polishProcessorRun running cbSet ctx' rest
        (es ++ es', ctxf)
    else ([], ctx)

/-! ## Session lifecycle (`start`, `_reconnect`, `send_audio`) -/

/-- The connection-lifecycle attributes of `DeepgramTranscriber`.
`hasConnection` models `self.connection is not None`; the callback flags model
the two optional callbacks being registered. -/
structure SessionState where
  is_running : Bool
  is_reconnecting : Bool
  connection_ready : Bool
  hasConnection : Bool
  reconnect_attempts : Nat
  max_reconnect_attempts : Nat
  reconnect_delay : ℚ
  transcriptionCallbackSet : Bool
  errorCallbackSet : Bool
deriving DecidableEq

/-- `DeepgramTranscriber.__init__` connection state: not running, not
reconnecting, no connection, 0 attempts, cap 5, delay 2.0 s, no callbacks. -/
def initSessionState : SessionState :=
  { is_running := false
    is_reconnecting := false
    connection_ready := false
    hasConnection := false
    reconnect_attempts := 0
    max_reconnect_attempts := 5
    reconnect_delay := 2
    transcriptionCallbackSet := false
    errorCallbackSet := false }

/-- Observable effects of the session lifecycle code, in order of occurrence:
an `asyncio.sleep`, a `connection.start(options)` call (attempt number and its
boolean outcome), a result delivered to the transcription callback, or a
message delivered to the error callback. -/
inductive SessionEvent where
  | sleep (seconds : ℚ)
  | connectAttempt (n : Nat) (success : Bool)
  | emitResult (r : TranscriptionResult)
  | errorCallback (msg : String)
deriving DecidableEq

/-- The synthetic result built on a successful reconnection. -/
def reconnectedResult (ts : String) : TranscriptionResult :=
  { detected_language := "system"
    original_text := "[Reconnected]"
    chinese_translation := "[重新连接成功]"
    timestamp := ts
    is_final := true }

/-- The `while` loop of `_reconnect`.  `fuel` is an upper bound on the number of
remaining iterations (the loop runs at most `max_reconnect_attempts -
reconnect_attempts` times since every iteration increments the counter, so any
`fuel ≥` that difference is exact); `oracle n` is the outcome of
`connection.start(options)` on attempt number `n`; `ts` stamps the synthetic
reconnected result.  Each iteration increments the counter, tears down the old
connection, sleeps `reconnect_delay`, opens a fresh connection and starts it:
on success the counter resets to 0, `is_reconnecting` clears and the synthetic
result is emitted; on failure with the cap reached the error callback fires,
`is_running` clears and the loop breaks; otherwise the loop continues.
`is_reconnecting` is cleared on every exit path (line after the loop, or the
success branch). -/
def reconnectLoop : Nat → SessionState → (Nat → Bool) → String → SessionState × List SessionEvent
  | 0, st, _, _ => ({ st with is_reconnecting := false }, [])
  | fuel + 1, st, oracle, ts =>
    if st.is_running = true ∧ st.reconnect_attempts < st.max_reconnect_attempts then
      let n := st.reconnect_attempts + 1
      let pre : List SessionEvent := [.sleep st.reconnect_delay, .connectAttempt n (oracle n)]
      if oracle n then
        let st' := { st with
          reconnect_attempts := 0
          is_reconnecting := false
          hasConnection := true }
        let emits := if st.transcriptionCallbackSet then
                       [SessionEvent.emitResult (reconnectedResult ts)] else []
        (st', pre ++ emits)
      else
        if st.max_reconnect_attempts ≤ n then
          let st' := { st with
            reconnect_attempts := n
            hasConnection := true
            is_running := false
            is_reconnecting := false }
          let errs := if st.errorCallbackSet then
                        [SessionEvent.errorCallback "无法重新连接: Failed to reconnect"] else []
          (st', pre ++ errs)
        else
          let step := reconnectLoop fuel
            { st with reconnect_attempts := n, hasConnection := true } oracle ts
          (step.1, pre ++ step.2)
    else ({ st with is_reconnecting := false }, [])

/-- `_reconnect`: returns immediately when a reconnection is already in flight
or the session is stopped; otherwise sets the guard flag and runs the loop. -/
def reconnect (st : SessionState) (oracle : Nat → Bool) (ts : String) :
    SessionState × List SessionEvent :=
  if st.is_reconnecting = true ∨ st.is_running = false then (st, [])
  else reconnectLoop st.max_reconnect_attempts { st with is_reconnecting := true } oracle ts

/-- The guard of `send_audio`: the chunk is forwarded to the socket only when
`self.connection and self.is_running and self.connection_ready`. -/
def sendAudioActs (st : SessionState) : Bool :=
  st.hasConnection && st.is_running && st.connection_ready

/-- Python exception classes distinguished by the spec: the builtin
`ConnectionError` versus the plain `Exception` the source raises. -/
inductive ExcKind where
  | pyException
  | pyConnectionError
deriving DecidableEq

/-- `start()`, abstracting the transport: `openOk` is the boolean returned by
`connection.start(options)`.  `is_running` is set and the main loop saved
before the `try` block; the connection object is assigned in both cases.  When
the transport cannot be opened the source raises
`Exception("Failed to connect to Deepgram")`, fires the error callback from the
`except` block, and re-raises. -/
def startSession (st : SessionState) (openOk : Bool) :
    SessionState × List SessionEvent × Except (ExcKind × String) Unit :=
  let st1 := { st with is_running := true, hasConnection := true }
  if openOk then (st1, [], Except.ok ())
  else
    let errs := if st.errorCallbackSet then
                  [SessionEvent.errorCallback "启动失败: Failed to connect to Deepgram"] else []
    (st1, errs, Except.error (ExcKind.pyException, "Failed to connect to Deepgram"))

/-- Number of `connection.start(options)` calls recorded in an event trace. -/
def countAttempts : List SessionEvent → Nat
  | [] => 0
  | .connectAttempt _ _ :: rest => countAttempts rest + 1
  | _ :: rest => countAttempts rest

/-- Checks that every `connectAttempt` in a trace is immediately preceded by an
`asyncio.sleep` of exactly `d` seconds. -/
def attemptsPrecededBy (d : ℚ) : List SessionEvent → Bool
  | .sleep d' :: .connectAttempt _ _ :: rest => decide (d' = d) && attemptsPrecededBy d rest
  | .connectAttempt _ _ :: _ => false
  | _ :: rest => attemptsPrecededBy d rest
  | [] => true

/-! ## Display boundary (`main.py`, `_on_transcription`) -/

/-- One call to `subtitle_display.update_subtitle`. -/
structure SubtitleUpdate where
  original_text : String
  chinese_text : String
  duration : ℚ
deriving DecidableEq

/-- `DeepgramLiveSubtitle._on_transcription` from `main.py`: given the stored
`last_chinese_translation` and an incoming result, returns the new stored
translation and the subtitle updates issued.  Final results with a non-empty
translation update the store and display for 5 s; interim results display the
original text with the *stored* previous translation for 2 s; final results
with an empty translation display nothing. -/
def onTranscription (displayPresent : Bool) (last : String) (r : TranscriptionResult) :
    String × List SubtitleUpdate :=
  if displayPresent = false then (last, [])
  else if r.is_final = true ∧ r.chinese_translation ≠ "" then
    (r.chinese_translation, [SubtitleUpdate.mk r.original_text r.chinese_translation 5])
  else if r.is_final = false then
    (last, [SubtitleUpdate.mk r.original_text last 2])
  else (last, [])

/-! ## Audio normalization (`audio_capture.py`, `audio_callback`) -/

/-- A raw input chunk handed to `audio_callback`: `indata` is a float array,
either mono (1-D, or a single column) or stereo with two columns.  Samples are
embedded as rationals. -/
inductive AudioInput where
  | mono (samples : List ℚ)
  | stereo (samples : List (ℚ × ℚ))
deriving DecidableEq

/-- Step 1 of `audio_callback`: `audio_data.mean(axis=1)` collapses a
two-column array to mono by averaging the channels; mono data passes through. -/
def toMono : AudioInput → List ℚ
  | .mono xs => xs
  | .stereo xs => xs.map (fun p => (p.1 + p.2) / 2)

/-- Modelled from the library interface: `scipy.signal.resample_poly(x, up=1,
down=3)` (an external dependency, not code of this repository) is embedded as
plain 3:1 index decimation — the spec calls the step "an exact 3:1 polyphase
decimation".  The output length `⌈N/3⌉` is exactly scipy's `ceil(N·up/down)`;
the anti-aliasing FIR applied to the retained samples is abstracted away. -/
def decimate3 : List ℚ → List ℚ
  | [] => []
  | [x] => [x]
  | [x, _] => [x]
  | x :: _ :: _ :: rest => x :: decimate3 rest

/-- Truncation toward zero, the rounding used by numpy's float→int cast. -/
def ratTrunc (q : ℚ) : ℤ :=
  if 0 ≤ q then ⌊q⌋ else ⌈q⌉

/-- Two's-complement wraparound into the `int16` range, the overflow behavior
of `.astype(np.int16)` on out-of-range values. -/
def wrapInt16 (n : ℤ) : ℤ :=
  (n + 32768) % 65536 - 32768

/-- Step 3 of `audio_callback`: `(audio_data * 32767).astype(np.int16)`. -/
def quantizeInt16 (x : ℚ) : ℤ :=
  wrapInt16 (ratTrunc (x * 32767))

/-- `MacSystemAudioCapture.audio_callback`, as the list of `int16` samples
pushed to the queue.  `deviceRateKnown` models `hasattr(self,
'device_sample_rate')` (set by `_capture_loop`); nothing is pushed unless
`is_recording`.  Stereo input is averaged to mono, a 48 kHz source is decimated
3:1 when the target rate is 16 kHz, and the floats are quantized to `int16`. -/
def audio_callback (is_recording deviceRateKnown : Bool)
    (device_sample_rate sample_rate : ℕ) (indata : AudioInput) : List ℤ :=
  if is_recording then
    let audio1 := toMono indata
    let audio2 :=
      if deviceRateKnown = true ∧ device_sample_rate = 48000 ∧ sample_rate = 16000 then
        decimate3 audio1
      else audio1
    audio2.map quantizeInt16
  else []

/-! ## Helper lemmas -/

theorem polishResult_final (ctx : List TranscriptionResult) (text language timestamp : String)
    (outcome : PolishOutcome) :
    (polishTranscription ctx text language timestamp outcome).1.is_final = true := by
  cases outcome <;> rfl

theorem polishProcessorRun_cons_some (cbSet : Bool) (ctx : List TranscriptionResult)
    (item : PolishRequest × PolishOutcome)
    (rest : List (Option (PolishRequest × PolishOutcome))) :
    (polishProcessorRun true cbSet ctx (some item :: rest)).1
      = (if cbSet then
          [(polishTranscription ctx item.1.text item.1.language item.1.timestamp item.2).1]
         else [])
        ++ (polishProcessorRun true cbSet
              (polishTranscription ctx item.1.text item.1.language item.1.timestamp item.2).2
              rest).1 := rfl

theorem polishProcessor_stopped (cbSet : Bool) (ctx : List TranscriptionResult)
    (queue : List (Option (PolishRequest × PolishOutcome))) :
    polishProcessorRun false cbSet ctx queue = ([], ctx) := by
  cases queue <;> rfl

theorem polishProcessor_all_final (running cbSet : Bool) (ctx : List TranscriptionResult)
    (queue : List (Option (PolishRequest × PolishOutcome))) :
    ((polishProcessorRun running cbSet ctx queue).1.all (fun r => r.is_final)) = true := by
  cases running with
  | false => rw [polishProcessor_stopped]; rfl
  | true =>
    induction queue generalizing ctx with
    | nil => rfl
    | cons q rest ih =>
      cases q with
      | none => rfl
      | some item =>
        rw [polishProcessorRun_cons_some, List.all_append, ih]
        cases cbSet with
        | false => rfl
        | true => simp [polishResult_final]

theorem countAttempts_append (a b : List SessionEvent) :
    countAttempts (a ++ b) = countAttempts a + countAttempts b := by
  induction a with
  | nil => simp [countAttempts]
  | cons e rest ih =>
    cases e
    all_goals simp [countAttempts, ih]
    omega

theorem countAttempts_pre (d : ℚ) (n : Nat) (b : Bool) :
    countAttempts [SessionEvent.sleep d, SessionEvent.connectAttempt n b] = 1 := rfl

theorem countAttempts_optEmit (c : Bool) (r : TranscriptionResult) :
    countAttempts (if c = true then [SessionEvent.emitResult r] else []) = 0 := by
  cases c <;> rfl

theorem countAttempts_optErr (c : Bool) (msg : String) :
    countAttempts (if c = true then [SessionEvent.errorCallback msg] else []) = 0 := by
  cases c <;> rfl

theorem reconnectLoop_countAttempts_le (fuel : Nat) :
    ∀ (st : SessionState) (oracle : Nat → Bool) (ts : String),
      countAttempts (reconnectLoop fuel st oracle ts).2 ≤ fuel := by
  induction fuel with
  | zero => intro st oracle ts; simp [reconnectLoop, countAttempts]
  | succ fuel ih =>
    intro st oracle ts
    simp only [reconnectLoop]
    by_cases hc : st.is_running = true ∧ st.reconnect_attempts < st.max_reconnect_attempts
    · rw [if_pos hc]
      by_cases ho : oracle (st.reconnect_attempts + 1) = true
      · rw [if_pos ho]
        rw [countAttempts_append, countAttempts_pre, countAttempts_optEmit]
        omega
      · rw [if_neg ho]
        by_cases hm : st.max_reconnect_attempts ≤ st.reconnect_attempts + 1
        · rw [if_pos hm]
          rw [countAttempts_append, countAttempts_pre, countAttempts_optErr]
          omega
        · rw [if_neg hm]
          rw [countAttempts_append, countAttempts_pre]
          have := ih { st with reconnect_attempts := st.reconnect_attempts + 1, hasConnection := true } oracle ts
          omega
    · rw [if_neg hc]
      exact Nat.zero_le _

theorem attemptsPrecededBy_pre (d : ℚ) (n : Nat) (b : Bool) (rest : List SessionEvent) :
    attemptsPrecededBy d (SessionEvent.sleep d :: SessionEvent.connectAttempt n b :: rest)
      = attemptsPrecededBy d rest := by
  show (decide (d = d) && attemptsPrecededBy d rest) = attemptsPrecededBy d rest
  simp

theorem attemptsPrecededBy_optEmit (d : ℚ) (c : Bool) (r : TranscriptionResult) :
    attemptsPrecededBy d (if c = true then [SessionEvent.emitResult r] else []) = true := by
  cases c <;> rfl

theorem attemptsPrecededBy_optErr (d : ℚ) (c : Bool) (msg : String) :
    attemptsPrecededBy d (if c = true then [SessionEvent.errorCallback msg] else []) = true := by
  cases c <;> rfl

theorem reconnectLoop_attempt_delay (fuel : Nat) :
    ∀ (st : SessionState) (oracle : Nat → Bool) (ts : String) (d : ℚ),
      st.reconnect_delay = d →
      attemptsPrecededBy d (reconnectLoop fuel st oracle ts).2 = true := by
  induction fuel with
  | zero => intro st oracle ts d _; rfl
  | succ fuel ih =>
    intro st oracle ts d hd
    subst hd
    simp only [reconnectLoop]
    by_cases hc : st.is_running = true ∧ st.reconnect_attempts < st.max_reconnect_attempts
    · rw [if_pos hc]
      by_cases ho : oracle (st.reconnect_attempts + 1) = true
      · rw [if_pos ho]
        rw [List.cons_append, List.cons_append, List.nil_append,
          attemptsPrecededBy_pre, attemptsPrecededBy_optEmit]
      · rw [if_neg ho]
        by_cases hm : st.max_reconnect_attempts ≤ st.reconnect_attempts + 1
        · rw [if_pos hm]
          rw [List.cons_append, List.cons_append, List.nil_append,
            attemptsPrecededBy_pre, attemptsPrecededBy_optErr]
        · rw [if_neg hm]
          rw [List.cons_append, List.cons_append, List.nil_append,
            attemptsPrecededBy_pre]
          exact ih { st with reconnect_attempts := st.reconnect_attempts + 1, hasConnection := true } oracle ts st.reconnect_delay (by simp)
    · rw [if_neg hc]
      rfl

theorem reconnectLoop_exhaust (fuel : Nat) :
    ∀ (st : SessionState) (oracle : Nat → Bool) (ts : String),
      st.is_running = true → st.errorCallbackSet = true →
      (∀ n, oracle n = false) →
      fuel + st.reconnect_attempts = st.max_reconnect_attempts →
      st.reconnect_attempts < st.max_reconnect_attempts →
      (reconnectLoop fuel st oracle ts).1.is_running = false
      ∧ SessionEvent.errorCallback "无法重新连接: Failed to reconnect"
          ∈ (reconnectLoop fuel st oracle ts).2
      ∧ countAttempts (reconnectLoop fuel st oracle ts).2 = fuel := by
  induction fuel with
  | zero => intro st oracle ts h1 h2 h3 h4 h5; omega
  | succ fuel ih =>
    intro st oracle ts h1 h2 h3 h4 h5
    simp only [reconnectLoop]
    rw [if_pos ⟨h1, h5⟩]
    rw [if_neg (by simp [h3])]
    by_cases hm : st.max_reconnect_attempts ≤ st.reconnect_attempts + 1
    · rw [if_pos hm]
      refine ⟨by simp, ?_, ?_⟩
      · simp [h2]
      · rw [countAttempts_append, countAttempts_pre, countAttempts_optErr]
        omega
    · rw [if_neg hm]
      have hrec := ih { st with reconnect_attempts := st.reconnect_attempts + 1, hasConnection := true } oracle ts (by simp [h1]) (by simp [h2]) h3 (by simp; omega) (by simp; omega)
      refine ⟨hrec.1, List.mem_append.mpr (Or.inr hrec.2.1), ?_⟩
      rw [countAttempts_append, countAttempts_pre, hrec.2.2]
      omega

theorem reconnectLoop_success (fuel : Nat) :
    ∀ (st : SessionState) (oracle : Nat → Bool) (ts : String) (k : Nat),
      st.is_running = true → st.transcriptionCallbackSet = true →
      st.reconnect_attempts < k → k ≤ st.max_reconnect_attempts →
      oracle k = true →
      (∀ m, st.reconnect_attempts < m → m < k → oracle m = false) →
      st.max_reconnect_attempts ≤ fuel + st.reconnect_attempts →
      (reconnectLoop fuel st oracle ts).1.reconnect_attempts = 0
      ∧ SessionEvent.emitResult (reconnectedResult ts) ∈ (reconnectLoop fuel st oracle ts).2
      ∧ (reconnectLoop fuel st oracle ts).1.is_running = true := by
  induction fuel with
  | zero => intro st oracle ts k h1 h2 h3 h4 h5 h6 h7; omega
  | succ fuel ih =>
    intro st oracle ts k h1 h2 h3 h4 h5 h6 h7
    simp only [reconnectLoop]
    rw [if_pos ⟨h1, by omega⟩]
    by_cases hk : st.reconnect_attempts + 1 = k
    · rw [if_pos (show oracle (st.reconnect_attempts + 1) = true by rw [hk]; exact h5)]
      refine ⟨by simp, ?_, by simp [h1]⟩
      simp [h2]
    · have hlt : st.reconnect_attempts + 1 < k := by omega
      rw [if_neg (by simp [h6 _ (by omega) hlt])]
      rw [if_neg (show ¬ st.max_reconnect_attempts ≤ st.reconnect_attempts + 1 by omega)]
      have hrec := ih { st with reconnect_attempts := st.reconnect_attempts + 1, hasConnection := true } oracle ts k (by simp [h1]) (by simp [h2]) (by simp [hlt]) (by simp [h4]) h5 (by intro m hm1 hm2; simp at hm1; exact h6 m (by omega) hm2) (by simp; omega)
      exact ⟨hrec.1, List.mem_append.mpr (Or.inr hrec.2.1), hrec.2.2⟩

/-! ## Claim theorems -/

/-- C10: every `TranscriptionResult` produced by the polish pipeline has
`is_final = true` — `_polish_transcription` hard-codes `is_final=True` on both
its success and its error path, so every result the processor delivers
(including those for submissions that originated from throttled interim
fragments, which carry no finality marker at all in the queue) reaches the
display boundary indistinguishable from a final result. -/
theorem polish_pipeline_results_final (running cbSet : Bool) (ctx : List TranscriptionResult)
    (queue : List (Option (PolishRequest × PolishOutcome)))
    (text language timestamp : String) (outcome : PolishOutcome) :
    (polishTranscription ctx text language timestamp outcome).1.is_final = true
    ∧ ((polishProcessorRun running cbSet ctx queue).1.all (fun r => r.is_final)) = true :=
  ⟨polishResult_final ctx text language timestamp outcome,
   polishProcessor_all_final running cbSet ctx queue⟩

/-- C4: when the external polishing call raises, `_polish_transcription` still
returns a result with an empty `chinese_translation`, `is_final = true`, and
the submitted text as `original_text`; and for every submission (any outcome,
failure included) the processor body delivers exactly one result to the
callback. -/
theorem polish_error_preserves_transcript (ctx : List TranscriptionResult)
    (text language timestamp : String) :
    (polishTranscription ctx text language timestamp PolishOutcome.callError).1.chinese_translation
      = ""
    ∧ (polishTranscription ctx text language timestamp PolishOutcome.callError).1.is_final = true
    ∧ (polishTranscription ctx text language timestamp PolishOutcome.callError).1.original_text
      = text
    ∧ (∀ outcome : PolishOutcome,
        (processQueueItem ctx true (PolishRequest.mk text language timestamp, outcome)).1
          = [(polishTranscription ctx text language timestamp outcome).1]) := by
  refine ⟨rfl, rfl, rfl, ?_⟩
  intro outcome
  cases outcome <;> rfl

/-- C5: starting from a context of at most 40 entries, one polish operation
leaves at most 40 entries; a failed call leaves the context unchanged; a
successful call appends the new result at the end, evicting exactly the oldest
entry when the cap would be exceeded (insertion order preserved). -/
theorem context_window_bounded (ctx : List TranscriptionResult)
    (text language timestamp : String) (outcome : PolishOutcome)
    (h : ctx.length ≤ 40) :
    (polishTranscription ctx text language timestamp outcome).2.length ≤ 40
    ∧ (outcome = PolishOutcome.callError →
        (polishTranscription ctx text language timestamp outcome).2 = ctx)
    ∧ (∀ p, outcome = PolishOutcome.response p →
        (ctx.length < 40 →
          (polishTranscription ctx text language timestamp outcome).2
            = ctx ++ [(polishTranscription ctx text language timestamp outcome).1])
        ∧ (ctx.length = 40 →
          (polishTranscription ctx text language timestamp outcome).2
            = (ctx ++ [(polishTranscription ctx text language timestamp outcome).1]).drop 1)) := by
  cases outcome with
  | callError =>
    refine ⟨h, fun _ => rfl, ?_⟩
    intro p hp
    exact absurd hp (by simp)
  | response p =>
    simp only [polishTranscription, context_window]
    constructor
    · by_cases hlt : 40 < ctx.length + 1
      · simp only [List.length_append, List.length_cons, List.length_nil, hlt, if_pos,
          List.length_drop]
        omega
      · simp only [List.length_append, List.length_cons, List.length_nil]
        rw [if_neg (by simpa using hlt)]
        simp only [List.length_append, List.length_cons, List.length_nil]
        omega
    constructor
    · intro hc
      exact absurd hc (by simp)
    · intro p' hp'
      constructor
      · intro hlt
        rw [if_neg (by simp; omega)]
      · intro heq
        rw [if_pos (by simp [heq])]
        simp [heq]

/-- C5 witness. -/
theorem context_window_bounded_witness :
    ([] : List TranscriptionResult).length ≤ 40
    ∧ ((polishTranscription [] "hi" "en" "12:00:00"
          (PolishOutcome.response (ParseOutcome.jsonOk (some "你好")))).2.length ≤ 40
      ∧ ((PolishOutcome.response (ParseOutcome.jsonOk (some "你好"))
            = PolishOutcome.callError →
          (polishTranscription [] "hi" "en" "12:00:00"
            (PolishOutcome.response (ParseOutcome.jsonOk (some "你好")))).2 = [])
      ∧ (∀ p, PolishOutcome.response (ParseOutcome.jsonOk (some "你好"))
            = PolishOutcome.response p →
          (([] : List TranscriptionResult).length < 40 →
            (polishTranscription [] "hi" "en" "12:00:00"
              (PolishOutcome.response (ParseOutcome.jsonOk (some "你好")))).2
              = [] ++ [(polishTranscription [] "hi" "en" "12:00:00"
                  (PolishOutcome.response (ParseOutcome.jsonOk (some "你好")))).1])
          ∧ (([] : List TranscriptionResult).length = 40 →
            (polishTranscription [] "hi" "en" "12:00:00"
              (PolishOutcome.response (ParseOutcome.jsonOk (some "你好")))).2
              = ([] ++ [(polishTranscription [] "hi" "en" "12:00:00"
                  (PolishOutcome.response (ParseOutcome.jsonOk (some "你好")))).1]).drop 1)))) :=
  ⟨by decide,
   context_window_bounded [] "hi" "en" "12:00:00"
     (PolishOutcome.response (ParseOutcome.jsonOk (some "你好"))) (by decide)⟩

/-- C6 (amended): once `stop()` has cleared `is_running` (which it does before
enqueueing the `None` sentinel), the polish processor exits at its
`while self.is_running` condition without draining — no queued fragment is
processed or emitted.  Only while `is_running` is still true does the sentinel
drain apply: then every fragment queued before the sentinel yields exactly one
delivered result. -/
theorem stop_skips_queued_fragments (cbSet : Bool) (ctx : List TranscriptionResult)
    (items : List (PolishRequest × PolishOutcome)) :
    (polishProcessorRun false cbSet ctx (items.map some ++ [none])).1 = []
    ∧ (polishProcessorRun true true ctx (items.map some ++ [none])).1.length
      = items.length := by
  constructor
  · rw [polishProcessor_stopped]
  · induction items generalizing ctx with
    | nil => rfl
    | cons it rest ih =>
      simp only [List.map_cons, List.cons_append, polishProcessorRun_cons_some, if_true,
        List.length_append, List.length_cons, List.length_nil, ih]
      omega

/-- C6 counterexample: a single fragment sits in the polish queue ahead of the
sentinel when `stop()` runs (so `is_running` is already false); the claim says
it is processed and yields an emitted final result, but the processor emits
nothing for it. -/
theorem stop_drops_queued_fragment_cex :
    (polishProcessorRun false true []
      [some (PolishRequest.mk "hello" "en" "12:00:00", PolishOutcome.callError), none]).1
      = []
    ∧ ¬((polishProcessorRun false true []
        [some (PolishRequest.mk "hello" "en" "12:00:00", PolishOutcome.callError), none]).1.length
        = 1) := by
  exact ⟨rfl, by decide⟩

/-- C1 counterexample: the claim fails on two explicit inputs.  An empty final
fragment (`transcript = ""`, `is_final = True`) is returned early by
`_on_transcript`: pending text is left as `"hi"` (not cleared) and nothing is
submitted to the polish queue.  A non-empty interim fragment arriving while
interim mode is disabled falls through every branch: it is dropped, not
treated as final, and nothing is submitted. -/
theorem aggregator_final_submit_cex :
    ((onTranscript
        { initAggState true "en" with pending_text := "hi", mainLoopSet := true }
        (TranscriptFragment.mk "" true none) 100 "12:00:00").1.pending_text = "hi"
     ∧ (onTranscript
        { initAggState true "en" with pending_text := "hi", mainLoopSet := true }
        (TranscriptFragment.mk "" true none) 100 "12:00:00").2.2 = [])
    ∧ (onTranscript
        { initAggState false "en" with mainLoopSet := true }
        (TranscriptFragment.mk "hello" false none) 100 "12:00:00").2.2 = [] :=
  ⟨⟨rfl, rfl⟩, rfl⟩

/-- C1 (amended): for every *non-empty* final fragment, the aggregator clears
`pending_text` and (the main loop being registered, as `start()` does) submits
the fragment's text to the polish queue.  Empty fragments are skipped entirely
— state untouched, nothing emitted or submitted — and a non-final fragment
arriving while interim mode is disabled is dropped, not treated as final. -/
theorem aggregator_final_fragment (st : AggState) (frag : TranscriptFragment) (now : ℚ)
    (ts : String) (hml : st.mainLoopSet = true) :
    (frag.transcript ≠ "" → frag.is_final = true →
      (onTranscript st frag now ts).1.pending_text = ""
      ∧ (onTranscript st frag now ts).2.2
        = [PolishRequest.mk frag.transcript (detectedLanguage frag.languages st.language) ts])
    ∧ (frag.transcript = "" → onTranscript st frag now ts = (st, [], []))
    ∧ (st.interim_results = false → frag.is_final = false → frag.transcript ≠ "" →
        onTranscript st frag now ts = (st, [], [])) := by
  refine ⟨?_, ?_, ?_⟩
  · intro hne hfin
    simp [onTranscript, hne, hfin, hml]
  · intro he
    simp [onTranscript, he]
  · intro hint hfin hne
    simp [onTranscript, hne, hint, hfin]

/-- C1 witness. -/
theorem aggregator_final_fragment_witness :
    ({ initAggState true "en" with pending_text := "hi", mainLoopSet := true } : AggState).mainLoopSet
      = true
    ∧ ((TranscriptFragment.mk "hello world." true none).transcript ≠ "" →
        (TranscriptFragment.mk "hello world." true none).is_final = true →
      (onTranscript { initAggState true "en" with pending_text := "hi", mainLoopSet := true }
        (TranscriptFragment.mk "hello world." true none) 100 "12:00:00").1.pending_text = ""
      ∧ (onTranscript { initAggState true "en" with pending_text := "hi", mainLoopSet := true }
        (TranscriptFragment.mk "hello world." true none) 100 "12:00:00").2.2
        = [PolishRequest.mk "hello world." (detectedLanguage none "en") "12:00:00"])
    ∧ ((TranscriptFragment.mk "hello world." true none).transcript = "" →
        onTranscript { initAggState true "en" with pending_text := "hi", mainLoopSet := true }
          (TranscriptFragment.mk "hello world." true none) 100 "12:00:00"
        = ({ initAggState true "en" with pending_text := "hi", mainLoopSet := true }, [], []))
    ∧ (({ initAggState true "en" with pending_text := "hi", mainLoopSet := true } : AggState).interim_results
          = false →
        (TranscriptFragment.mk "hello world." true none).is_final = false →
        (TranscriptFragment.mk "hello world." true none).transcript ≠ "" →
        onTranscript { initAggState true "en" with pending_text := "hi", mainLoopSet := true }
          (TranscriptFragment.mk "hello world." true none) 100 "12:00:00"
        = ({ initAggState true "en" with pending_text := "hi", mainLoopSet := true }, [], [])) :=
  ⟨rfl, aggregator_final_fragment
    { initAggState true "en" with pending_text := "hi", mainLoopSet := true }
    (TranscriptFragment.mk "hello world." true none) 100 "12:00:00" rfl⟩

/-- C2: for every non-empty interim fragment processed while interim mode is
enabled (main loop registered, threshold at its configured 1.0 s), the fragment
is submitted to the polish queue iff at least 1.0 second has elapsed since the
last submission, and `last_translation_time` is updated exactly when a
submission occurs; a non-empty final fragment is always submitted and always
updates the timestamp. -/
theorem aggregator_throttle (st : AggState) (frag : TranscriptFragment) (now : ℚ)
    (ts : String) (hml : st.mainLoopSet = true) (hth : st.translation_threshold = 1)
    (hne : frag.transcript ≠ "") :
    (st.interim_results = true → frag.is_final = false →
      ((1 ≤ now - st.last_translation_time →
          (onTranscript st frag now ts).2.2
            = [PolishRequest.mk frag.transcript (detectedLanguage frag.languages st.language) ts]
          ∧ (onTranscript st frag now ts).1.last_translation_time = now)
       ∧ (now - st.last_translation_time < 1 →
          (onTranscript st frag now ts).2.2 = []
          ∧ (onTranscript st frag now ts).1.last_translation_time
            = st.last_translation_time)))
    ∧ (frag.is_final = true →
        (onTranscript st frag now ts).2.2
          = [PolishRequest.mk frag.transcript (detectedLanguage frag.languages st.language) ts]
        ∧ (onTranscript st frag now ts).1.last_translation_time = now) := by
  constructor
  · intro hint hfin
    constructor
    · intro helapsed
      simp [onTranscript, hne, hint, hfin, hml, hth, helapsed]
    · intro hlt
      simp [onTranscript, hne, hint, hfin, hml, hth, not_le.mpr hlt]
  · intro hfin
    simp [onTranscript, hne, hfin, hml]

/-- C2 witness. -/
theorem aggregator_throttle_witness :
    ({ initAggState true "en" with mainLoopSet := true } : AggState).mainLoopSet = true
    ∧ ({ initAggState true "en" with mainLoopSet := true } : AggState).translation_threshold = 1
    ∧ (TranscriptFragment.mk "hel" false none).transcript ≠ ""
    ∧ ((({ initAggState true "en" with mainLoopSet := true } : AggState).interim_results = true →
        (TranscriptFragment.mk "hel" false none).is_final = false →
        ((1 ≤ (3 : ℚ) - ({ initAggState true "en" with mainLoopSet := true } : AggState).last_translation_time →
            (onTranscript { initAggState true "en" with mainLoopSet := true }
              (TranscriptFragment.mk "hel" false none) 3 "12:00:00").2.2
              = [PolishRequest.mk "hel" (detectedLanguage none "en") "12:00:00"]
            ∧ (onTranscript { initAggState true "en" with mainLoopSet := true }
              (TranscriptFragment.mk "hel" false none) 3 "12:00:00").1.last_translation_time = 3)
         ∧ ((3 : ℚ) - ({ initAggState true "en" with mainLoopSet := true } : AggState).last_translation_time < 1 →
            (onTranscript { initAggState true "en" with mainLoopSet := true }
              (TranscriptFragment.mk "hel" false none) 3 "12:00:00").2.2 = []
            ∧ (onTranscript { initAggState true "en" with mainLoopSet := true }
              (TranscriptFragment.mk "hel" false none) 3 "12:00:00").1.last_translation_time
              = ({ initAggState true "en" with mainLoopSet := true } : AggState).last_translation_time)))
      ∧ ((TranscriptFragment.mk "hel" false none).is_final = true →
          (onTranscript { initAggState true "en" with mainLoopSet := true }
            (TranscriptFragment.mk "hel" false none) 3 "12:00:00").2.2
            = [PolishRequest.mk "hel" (detectedLanguage none "en") "12:00:00"]
          ∧ (onTranscript { initAggState true "en" with mainLoopSet := true }
            (TranscriptFragment.mk "hel" false none) 3 "12:00:00").1.last_translation_time = 3)) :=
  ⟨rfl, rfl, by decide,
   aggregator_throttle { initAggState true "en" with mainLoopSet := true }
     (TranscriptFragment.mk "hel" false none) 3 "12:00:00" rfl rfl (by decide)⟩

/-- C7: a non-empty interim fragment processed while interim mode is enabled
(callback registered) is emitted to the display immediately, in the same
handler call, as a `TranscriptionResult` with `is_final = false` and an empty
(never freshly computed) translation; `main.py`'s display handler then shows it
with the *stored* last-known polished translation and the 2.0 s interim
duration, leaving the stored translation unchanged. -/
theorem interim_display_last_known (st : AggState) (frag : TranscriptFragment) (now : ℚ)
    (ts last : String) (hint : st.interim_results = true) (hfin : frag.is_final = false)
    (hne : frag.transcript ≠ "") (hcb : st.callbackSet = true) :
    (onTranscript st frag now ts).2.1
      = [{ detected_language := detectedLanguage frag.languages st.language
           original_text := frag.transcript
           chinese_translation := ""
           timestamp := ts
           is_final := false }]
    ∧ onTranscription true last
        { detected_language := detectedLanguage frag.languages st.language
          original_text := frag.transcript
          chinese_translation := ""
          timestamp := ts
          is_final := false }
      = (last, [SubtitleUpdate.mk frag.transcript last 2]) := by
  constructor
  · by_cases hthr : st.translation_threshold ≤ now - st.last_translation_time <;>
      simp [onTranscript, hne, hint, hfin, hcb, hthr]
  · simp [onTranscription]

/-- C7 witness. -/
theorem interim_display_last_known_witness :
    ({ initAggState true "en" with callbackSet := true } : AggState).interim_results = true
    ∧ (TranscriptFragment.mk "hel" false (some ["en"])).is_final = false
    ∧ (TranscriptFragment.mk "hel" false (some ["en"])).transcript ≠ ""
    ∧ ({ initAggState true "en" with callbackSet := true } : AggState).callbackSet = true
    ∧ ((onTranscript { initAggState true "en" with callbackSet := true }
        (TranscriptFragment.mk "hel" false (some ["en"])) 3 "12:00:00").2.1
        = [{ detected_language := detectedLanguage (some ["en"]) "en"
             original_text := "hel"
             chinese_translation := ""
             timestamp := "12:00:00"
             is_final := false }]
      ∧ onTranscription true "旧译文"
          { detected_language := detectedLanguage (some ["en"]) "en"
            original_text := "hel"
            chinese_translation := ""
            timestamp := "12:00:00"
            is_final := false }
        = ("旧译文", [SubtitleUpdate.mk "hel" "旧译文" 2])) :=
  ⟨rfl, rfl, by decide, rfl,
   interim_display_last_known { initAggState true "en" with callbackSet := true }
     (TranscriptFragment.mk "hel" false (some ["en"])) 3 "12:00:00" "旧译文"
     rfl rfl (by decide) rfl⟩

theorem decimate3_length : ∀ xs : List ℚ, (decimate3 xs).length = (xs.length + 2) / 3
  | [] => by simp [decimate3]
  | [_] => by simp [decimate3]
  | [_, _] => by simp [decimate3]
  | _ :: _ :: _ :: rest => by
    simp only [decimate3, List.length_cons, decimate3_length rest]
    omega

/-- C8: while recording with a known 48 kHz device rate and a 16 kHz target, a
stereo chunk of `N` frames is averaged to mono sample-wise and then decimated
3:1, giving `⌈N/3⌉` output samples — within one of `⌊N/3⌋`, as the claim's
"within rounding" allows; an already-16 kHz mono float chunk keeps its length,
each output sample being the input sample scaled by 32767 (then cast to
`int16`, truncating toward zero with wraparound). -/
theorem audio_normalizer_spec (xs : List (ℚ × ℚ)) (ys : List ℚ) :
    audio_callback true true 48000 16000 (AudioInput.stereo xs)
      = (decimate3 (xs.map (fun p => (p.1 + p.2) / 2))).map quantizeInt16
    ∧ (audio_callback true true 48000 16000 (AudioInput.stereo xs)).length
      = (xs.length + 2) / 3
    ∧ xs.length / 3 ≤ (audio_callback true true 48000 16000 (AudioInput.stereo xs)).length
    ∧ (audio_callback true true 48000 16000 (AudioInput.stereo xs)).length
      ≤ xs.length / 3 + 1
    ∧ (audio_callback true true 16000 16000 (AudioInput.mono ys)).length = ys.length
    ∧ audio_callback true true 16000 16000 (AudioInput.mono ys)
      = ys.map (fun x => wrapInt16 (ratTrunc (x * 32767))) := by
  have hlen : (audio_callback true true 48000 16000 (AudioInput.stereo xs)).length
      = (xs.length + 2) / 3 := by
    simp [audio_callback, toMono, decimate3_length]
  refine ⟨rfl, hlen, ?_, ?_, ?_, ?_⟩
  · rw [hlen]; omega
  · rw [hlen]; omega
  · simp [audio_callback, toMono]
  · rfl

/-- C3: from the idle state in which `_on_error`/`_on_close` schedule
`_reconnect` (running, not yet reconnecting, attempt counter 0, cap 5, delay
2.0 s, callbacks registered): the loop makes at most 5 `connection.start`
attempts, every attempt is immediately preceded by a 2-second sleep; if every
attempt fails the session ends not-running with exactly 5 attempts made, the
fatal message delivered to the error callback, and `send_audio` a no-op; if
attempt `k ≤ 5` is the first to succeed, the attempt counter is reset to 0,
the synthetic "[Reconnected]" result is emitted, and the session stays
running. -/
theorem reconnect_bounded_retry (st : SessionState) (oracle : Nat → Bool) (ts : String)
    (hrun : st.is_running = true) (hrec : st.is_reconnecting = false)
    (hatt : st.reconnect_attempts = 0) (hmax : st.max_reconnect_attempts = 5)
    (hdel : st.reconnect_delay = 2) (hcb : st.transcriptionCallbackSet = true)
    (herr : st.errorCallbackSet = true) :
    countAttempts (reconnect st oracle ts).2 ≤ 5
    ∧ attemptsPrecededBy 2 (reconnect st oracle ts).2 = true
    ∧ ((∀ n, oracle n = false) →
        (reconnect st oracle ts).1.is_running = false
        ∧ SessionEvent.errorCallback "无法重新连接: Failed to reconnect"
            ∈ (reconnect st oracle ts).2
        ∧ sendAudioActs (reconnect st oracle ts).1 = false
        ∧ countAttempts (reconnect st oracle ts).2 = 5)
    ∧ (∀ k, 1 ≤ k → k ≤ 5 → oracle k = true → (∀ m, 0 < m → m < k → oracle m = false) →
        (reconnect st oracle ts).1.reconnect_attempts = 0
        ∧ SessionEvent.emitResult (reconnectedResult ts) ∈ (reconnect st oracle ts).2
        ∧ (reconnect st oracle ts).1.is_running = true) := by
  have hguard : ¬(st.is_reconnecting = true ∨ st.is_running = false) := by
    simp [hrec, hrun]
  rw [reconnect, if_neg hguard, hmax]
  refine ⟨?_, ?_, ?_, ?_⟩
  · exact reconnectLoop_countAttempts_le 5
      { st with is_reconnecting := true, max_reconnect_attempts := 5 } oracle ts
  · exact reconnectLoop_attempt_delay 5
      { st with is_reconnecting := true, max_reconnect_attempts := 5 } oracle ts 2
      (by simp [hdel])
  · intro hall
    have h := reconnectLoop_exhaust 5
      { st with is_reconnecting := true, max_reconnect_attempts := 5 } oracle ts
      (by simp [hrun]) (by simp [herr]) hall (by simp [hatt]) (by simp [hatt])
    refine ⟨h.1, h.2.1, ?_, h.2.2⟩
    simp [sendAudioActs, h.1]
  · intro k hk1 hk5 hok hbefore
    exact reconnectLoop_success 5
      { st with is_reconnecting := true, max_reconnect_attempts := 5 } oracle ts k
      (by simp [hrun]) (by simp [hcb]) (by simp [hatt]; omega)
      (by simp; omega) hok
      (by intro m hm1 hm2; simp [hatt] at hm1; exact hbefore m hm1 hm2)
      (by simp [hatt])

/-- C3 witness. -/
theorem reconnect_bounded_retry_witness :
    ({ initSessionState with is_running := true, transcriptionCallbackSet := true, errorCallbackSet := true } : SessionState).is_running = true
    ∧ ({ initSessionState with is_running := true, transcriptionCallbackSet := true, errorCallbackSet := true } : SessionState).is_reconnecting = false
    ∧ ({ initSessionState with is_running := true, transcriptionCallbackSet := true, errorCallbackSet := true } : SessionState).reconnect_attempts = 0
    ∧ ({ initSessionState with is_running := true, transcriptionCallbackSet := true, errorCallbackSet := true } : SessionState).max_reconnect_attempts = 5
    ∧ ({ initSessionState with is_running := true, transcriptionCallbackSet := true, errorCallbackSet := true } : SessionState).reconnect_delay = 2
    ∧ ({ initSessionState with is_running := true, transcriptionCallbackSet := true, errorCallbackSet := true } : SessionState).transcriptionCallbackSet = true
    ∧ ({ initSessionState with is_running := true, transcriptionCallbackSet := true, errorCallbackSet := true } : SessionState).errorCallbackSet = true
    ∧ (countAttempts (reconnect { initSessionState with is_running := true, transcriptionCallbackSet := true, errorCallbackSet := true } (fun _ => false) "12:00:00").2 ≤ 5
      ∧ attemptsPrecededBy 2 (reconnect { initSessionState with is_running := true, transcriptionCallbackSet := true, errorCallbackSet := true } (fun _ => false) "12:00:00").2 = true
      ∧ ((∀ n, (fun _ => false : Nat → Bool) n = false) →
          (reconnect { initSessionState with is_running := true, transcriptionCallbackSet := true, errorCallbackSet := true } (fun _ => false) "12:00:00").1.is_running = false
          ∧ SessionEvent.errorCallback "无法重新连接: Failed to reconnect"
              ∈ (reconnect { initSessionState with is_running := true, transcriptionCallbackSet := true, errorCallbackSet := true } (fun _ => false) "12:00:00").2
          ∧ sendAudioActs (reconnect { initSessionState with is_running := true, transcriptionCallbackSet := true, errorCallbackSet := true } (fun _ => false) "12:00:00").1 = false
          ∧ countAttempts (reconnect { initSessionState with is_running := true, transcriptionCallbackSet := true, errorCallbackSet := true } (fun _ => false) "12:00:00").2 = 5)
      ∧ (∀ k, 1 ≤ k → k ≤ 5 → (fun _ => false : Nat → Bool) k = true →
          (∀ m, 0 < m → m < k → (fun _ => false : Nat → Bool) m = false) →
          (reconnect { initSessionState with is_running := true, transcriptionCallbackSet := true, errorCallbackSet := true } (fun _ => false) "12:00:00").1.reconnect_attempts = 0
          ∧ SessionEvent.emitResult (reconnectedResult "12:00:00")
              ∈ (reconnect { initSessionState with is_running := true, transcriptionCallbackSet := true, errorCallbackSet := true } (fun _ => false) "12:00:00").2
          ∧ (reconnect { initSessionState with is_running := true, transcriptionCallbackSet := true, errorCallbackSet := true } (fun _ => false) "12:00:00").1.is_running = true)) :=
  ⟨rfl, rfl, rfl, rfl, rfl, rfl, rfl,
   reconnect_bounded_retry
     { initSessionState with is_running := true, transcriptionCallbackSet := true, errorCallbackSet := true }
     (fun _ => false) "12:00:00" rfl rfl rfl rfl rfl rfl rfl⟩

/-- C9 counterexample: when the transport cannot be opened
(`connection.start(options)` returns false), `start()` raises the plain
`Exception("Failed to connect to Deepgram")`, which is not the builtin
`ConnectionError` class the claim names. -/
theorem start_exception_class_cex :
    (startSession initSessionState false).2.2
      = Except.error (ExcKind.pyException, "Failed to connect to Deepgram")
    ∧ ExcKind.pyException ≠ ExcKind.pyConnectionError :=
  ⟨rfl, by decide⟩

/-- C9 (amended): for every call to `start()` in which the transport cannot be
opened, `start()` fails by raising a plain `Exception` with message
"Failed to connect to Deepgram" (not `ConnectionError`); the error callback is
invoked from the `except` block before the exception propagates, and
`is_running` is left set. -/
theorem start_failure_raises (st : SessionState) (openOk : Bool) (h : openOk = false)
    (hcb : st.errorCallbackSet = true) :
    (startSession st openOk).2.2
      = Except.error (ExcKind.pyException, "Failed to connect to Deepgram")
    ∧ (startSession st openOk).2.1
      = [SessionEvent.errorCallback "启动失败: Failed to connect to Deepgram"]
    ∧ (startSession st openOk).1.is_running = true := by
  subst h
  simp [startSession, hcb]

/-- C9 witness. -/
theorem start_failure_raises_witness :
    (false = false)
    ∧ ({ initSessionState with errorCallbackSet := true } : SessionState).errorCallbackSet = true
    ∧ ((startSession { initSessionState with errorCallbackSet := true } false).2.2
        = Except.error (ExcKind.pyException, "Failed to connect to Deepgram")
      ∧ (startSession { initSessionState with errorCallbackSet := true } false).2.1
        = [SessionEvent.errorCallback "启动失败: Failed to connect to Deepgram"]
      ∧ (startSession { initSessionState with errorCallbackSet := true } false).1.is_running
        = true) :=
  ⟨rfl, rfl,
   start_failure_raises { initSessionState with errorCallbackSet := true } false rfl rfl⟩

end MacLiveSubtitle
